import Mathlib

/-!
Shallow embedding of the elevenlabs-cli core (src/lib/api-client.ts,
src/lib/config.ts, src/commands/get.ts, src/commands/list.ts,
src/commands/analyze.ts, src/types/elevenlabs.ts) together with theorems
settling the specification claims about it.

Modelling conventions:
- TypeScript optional / nullable fields become `Option`.
- JavaScript truthiness on optional strings (`if (x)`) is `jsTruthy`:
  a `some` value is truthy exactly when it is non-empty.
- JavaScript numbers are embedded as `Nat` where the code only ever holds
  non-negative integers (durations, costs, HTTP statuses) and as `Rat` for
  the latency measurements that are rendered with `toFixed(3)`.
- The axios transport is a function from the request the client builds to
  `Except AxiosError data`; a thrown value is `Except.error`.
- `process.env` is a list of `KEY, VALUE` pairs; a key present with an
  empty value is set-but-empty, exactly as in Node.
-/

/-- Scalar JSON values, used for tool-call parameter maps and tool-result
payloads (`Record<string, any>` in src/types/elevenlabs.ts; the claims only
exercise scalar parameter values). -/
inductive JsonVal where
  | null
  | bool (b : Bool)
  | num (n : Int)
  | str (s : String)
  deriving DecidableEq

/-- JSON string escaping as performed by JSON.stringify for the characters
the claims can reach (quote and backslash). -/
def jsonEscape (s : String) : String :=
  String.mk (s.data.foldr
    (fun c acc =>
      if c == '"' then '\\' :: '"' :: acc
      else if c == '\\' then '\\' :: '\\' :: acc
      else c :: acc) [])

/-- Rendering of a scalar JSON value, as JSON.stringify renders it. -/
def JsonVal.stringify : JsonVal → String
  | JsonVal.null => "null"
  | JsonVal.bool true => "true"
  | JsonVal.bool false => "false"
  | JsonVal.num n => toString n
  | JsonVal.str s => "\"" ++ jsonEscape s ++ "\""

/-- Comma-separated `"key":value` fields of a JSON object, in insertion
order, as JSON.stringify emits them. -/
def jsonFieldsStr : List (String × JsonVal) → String
  | [] => ""
  | [p] => "\"" ++ jsonEscape p.1 ++ "\":" ++ p.2.stringify
  | p :: rest => "\"" ++ jsonEscape p.1 ++ "\":" ++ p.2.stringify ++ "," ++ jsonFieldsStr rest

/-- JSON.stringify of an object (a parameter mapping). -/
def jsonStringifyObj (fields : List (String × JsonVal)) : String :=
  "\x7b" ++ jsonFieldsStr fields ++ "\x7d"

/-- Turn role, `'user' | 'agent'` in src/types/elevenlabs.ts. -/
inductive Role where
  | user
  | agent
  deriving DecidableEq

/-- src/types/elevenlabs.ts `ToolCall`. -/
structure ToolCall where
  tool_call_id : String
  name : String
  parameters : List (String × JsonVal)
  deriving DecidableEq

/-- src/types/elevenlabs.ts `ToolResult`; `error?: string` becomes an
`Option String` (present-but-empty is `some ""`). -/
structure ToolResult where
  tool_call_id : String
  result : JsonVal
  error : Option String
  deriving DecidableEq

/-- One named latency measurement (`{ elapsed_time: number }`). -/
structure LatencyMetric where
  elapsed_time : Rat
  deriving DecidableEq

/-- src/types/elevenlabs.ts `TurnMetrics`: both named metrics optional. -/
structure TurnMetrics where
  convai_llm_service_ttfb : Option LatencyMetric
  convai_llm_service_ttf_sentence : Option LatencyMetric
  deriving DecidableEq

/-- src/types/elevenlabs.ts `ConversationMessage` (one transcript turn). -/
structure ConversationMessage where
  role : Role
  message : String
  tool_calls : Option (List ToolCall)
  tool_results : Option (List ToolResult)
  time_in_call_secs : Nat
  conversation_turn_metrics : Option TurnMetrics
  deriving DecidableEq

/-- src/types/elevenlabs.ts `ConversationMetadata`, restricted to the fields
the commands read. -/
structure ConversationMetadata where
  start_time_unix_secs : Nat
  call_duration_secs : Nat
  cost : Nat
  deriving DecidableEq

/-- src/types/elevenlabs.ts `ConversationAnalysis`, restricted to the fields
the commands read. -/
structure ConversationAnalysis where
  call_successful : String
  transcript_summary : String
  deriving DecidableEq

/-- src/types/elevenlabs.ts `Conversation`, restricted to the fields the
commands read. -/
structure Conversation where
  conversation_id : String
  agent_id : String
  status : String
  transcript : List ConversationMessage
  metadata : ConversationMetadata
  analysis : Option ConversationAnalysis
  deriving DecidableEq

/-- src/types/elevenlabs.ts `ConversationListItem`. -/
structure ConversationListItem where
  conversation_id : String
  agent_id : String
  created_at : String
  status : Option String
  deriving DecidableEq

/-- src/types/elevenlabs.ts `ConversationListResponse`. -/
structure ConversationListResponse where
  conversations : List ConversationListItem
  deriving DecidableEq

/-- src/types/elevenlabs.ts `ListConversationsOptions`. -/
structure ListConversationsOptions where
  limit : Option Nat
  offset : Option Nat
  deriving DecidableEq

/-- JavaScript truthiness of an optional string: `undefined` and `""` are
falsy, every other string is truthy. -/
def jsTruthy (o : Option String) : Bool :=
  match o with
  | some s => s != ""
  | none => false

/-! ## Configuration resolver (src/lib/config.ts) -/

/-- src/lib/config.ts `Config`. -/
structure Config where
  apiKey : String
  deriving DecidableEq

/-- src/lib/config.ts `LoadConfigOptions`. -/
structure LoadConfigOptions where
  apiKey : Option String
  envPath : Option String
  deriving DecidableEq

/-- The environment variable name read by `loadConfig`. -/
def apiKeyVarName : String := "ELEVENLABS_API_KEY"

/-- Lookup of a variable in an environment (first binding wins; the
process environment and a parsed .env file have distinct keys). -/
def envGet (env : List (String × String)) (key : String) : Option String :=
  (env.find? (fun p => p.1 == key)).map (fun p => p.2)

/-- Modelled from the spec: the dotenv merge performed by
`dotenv.config({ path: envPath })` — the dotenv library is a dependency, not
part of src/ — which, in the spec's words, parses the file as KEY=VALUE
lines and merges them "into the process environment without overwriting
variables already set in the process environment". A variable present in
the process environment, even with an empty value, is already set and is
therefore not overwritten. -/
def dotenvPopulate (procEnv fileVars : List (String × String)) : List (String × String) :=
  procEnv ++ fileVars.filter (fun p => (envGet procEnv p.1).isNone)

/-- The exact message of the error thrown by `loadConfig` when no key is
found (two concatenated string literals in src/lib/config.ts). -/
def configErrorMessage : String :=
  "ELEVENLABS_API_KEY not found. Set it via .env file, environment variable, or --api-key flag."

/-- Priorities 2 and 3 of src/lib/config.ts `loadConfig`: merge the .env
file (if it exists at the resolved path) into the process environment, then
read `process.env.ELEVENLABS_API_KEY` and throw when it is falsy.
`envFile` is the parsed content of the file at the resolved env path
(`options.envPath || path.join(__dirname, '../../.env')`), or `none` when
`fs.existsSync` is false there. -/
def loadConfigFromEnv (envFile : Option (List (String × String)))
    (procEnv : List (String × String)) : Except String Config :=
  let env := match envFile with
    | some fileVars => dotenvPopulate procEnv fileVars
    | none => procEnv
  match envGet env apiKeyVarName with
  | some k => if k == "" then Except.error configErrorMessage else Except.ok (Config.mk k)
  | none => Except.error configErrorMessage

/-- src/lib/config.ts `loadConfig`: priority 1 is the explicit
`options.apiKey`, guarded by JavaScript truthiness (`if (options.apiKey)`),
so an empty explicit key falls through to the environment sources. -/
def loadConfig (options : LoadConfigOptions) (envFile : Option (List (String × String)))
    (procEnv : List (String × String)) : Except String Config :=
  match options.apiKey with
  | some k => if k == "" then loadConfigFromEnv envFile procEnv else Except.ok (Config.mk k)
  | none => loadConfigFromEnv envFile procEnv

/-! ## Remote service client (src/lib/api-client.ts) -/

/-- The status part of an axios error's `response`. -/
structure HttpResponseInfo where
  status : Nat
  statusText : String
  deriving DecidableEq

/-- An error thrown by the axios transport: `response` is present when an
HTTP response with a status was received, absent on pure transport
failures; `message` carries the original error's own message. -/
structure AxiosError where
  response : Option HttpResponseInfo
  message : String
  deriving DecidableEq

/-- An error thrown by an `ElevenLabsClient` method: either the freshly
constructed `new Error("API Error: ...")` or the rethrown original. -/
inductive ThrownError where
  | apiError (message : String)
  | original (e : AxiosError)
  deriving DecidableEq

/-- The message of the error built in each catch block:
`` `API Error: ${error.response.status} ${error.response.statusText}` ``. -/
def apiErrorMessage (r : HttpResponseInfo) : String :=
  "API Error: " ++ toString r.status ++ " " ++ r.statusText

/-- Request path of `getConversation`. -/
def conversationPath (conversationId : String) : String :=
  "/v1/convai/conversations/" ++ conversationId

/-- src/lib/api-client.ts `getConversation`: perform the GET, return the
response data unchanged; on a thrown error with a `response`, throw the
mapped API error, otherwise rethrow the original error. -/
def getConversation (transport : String → Except AxiosError Conversation)
    (conversationId : String) : Except ThrownError Conversation :=
  match transport (conversationPath conversationId) with
  | Except.ok data => Except.ok data
  | Except.error e =>
    match e.response with
    | some r => Except.error (ThrownError.apiError (apiErrorMessage r))
    | none => Except.error (ThrownError.original e)

/-- The GET request issued by `listConversations`: the URL and the params
object `{ page_size: options?.limit }` — nothing else is sent. -/
structure ListRequest where
  url : String
  page_size : Option Nat
  deriving DecidableEq

/-- Request path of `listConversations`. -/
def listUrl : String := "/v1/convai/conversations"

/-- The request `listConversations` builds from its options. -/
def mkListRequest (options : Option ListConversationsOptions) : ListRequest :=
  ListRequest.mk listUrl (options.bind (fun o => o.limit))

/-- src/lib/api-client.ts `listConversations`: same shape as
`getConversation`, returning the response data unchanged. -/
def listConversations (transport : ListRequest → Except AxiosError ConversationListResponse)
    (options : Option ListConversationsOptions) : Except ThrownError ConversationListResponse :=
  match transport (mkListRequest options) with
  | Except.ok data => Except.ok data
  | Except.error e =>
    match e.response with
    | some r => Except.error (ThrownError.apiError (apiErrorMessage r))
    | none => Except.error (ThrownError.original e)

/-- The GET request issued by `getAudio` (binary response mode). -/
structure AudioRequest where
  url : String
  responseType : String
  deriving DecidableEq

/-- The request `getAudio` builds. -/
def mkAudioRequest (conversationId : String) : AudioRequest :=
  AudioRequest.mk ("/v1/convai/conversations/" ++ conversationId ++ "/audio") "arraybuffer"

/-- src/lib/api-client.ts `getAudio`; the audio buffer is a byte list. -/
def getAudio (transport : AudioRequest → Except AxiosError (List Nat))
    (conversationId : String) : Except ThrownError (List Nat) :=
  match transport (mkAudioRequest conversationId) with
  | Except.ok data => Except.ok data
  | Except.error e =>
    match e.response with
    | some r => Except.error (ThrownError.apiError (apiErrorMessage r))
    | none => Except.error (ThrownError.original e)

/-! ## list command rendering (src/commands/list.ts) -/

/-- The stdout block printed for one listed conversation (three
`console.log` lines plus the blank-line log), at a given zero-based
index. -/
def listItemBlock (index : Nat) (conv : ConversationListItem) : String :=
  toString (index + 1) ++ ". " ++ conv.conversation_id ++ "\n"
    ++ "   Agent: " ++ conv.agent_id ++ "\n"
    ++ "   Created: " ++ conv.created_at ++ "\n"
    ++ "\n"

/-- The stdout produced by `listCommand` for a successful response: header
line, then the items in response order (each `console.log` appends a
newline). -/
def renderListOutput (result : ConversationListResponse) : String :=
  let header := "\n📋 Recent Conversations (showing "
    ++ toString result.conversations.length ++ "):\n" ++ "\n"
  result.conversations.enum.foldl (fun acc p => acc ++ listItemBlock p.1 p.2) header

/-- The limit computed by `listCommand`: `options.recent || 10` (JavaScript
`||`, so an explicit 0 also falls back to 10). -/
def listCommandLimit (recent : Option Nat) : Nat :=
  match recent with
  | some n => if n == 0 then 10 else n
  | none => 10

/-! ## analyze command formatting (src/commands/analyze.ts) -/

/-- src/commands/analyze.ts `formatDuration`. -/
def formatDuration (seconds : Nat) : String :=
  let mins := seconds / 60
  let secs := seconds % 60
  toString mins ++ "m " ++ toString secs ++ "s"

/-- The filter predicate of `analyzeToolCalls`:
`turn.tool_calls && turn.tool_calls.length > 0`. -/
def hasToolCallList (turn : ConversationMessage) : Bool :=
  match turn.tool_calls with
  | some l => decide (0 < l.length)
  | none => false

/-- The tool-call-bearing turns, in transcript order. -/
def toolCallTurns (conversation : Conversation) : List ConversationMessage :=
  conversation.transcript.filter (fun turn => hasToolCallList turn)

/-- The three `output +=` lines emitted for one tool call. -/
def toolCallBlock (toolCall : ToolCall) : String :=
  "- **" ++ toolCall.name ++ "**\n"
    ++ "  - ID: `" ++ toolCall.tool_call_id ++ "`\n"
    ++ "  - Parameters: `" ++ jsonStringifyObj toolCall.parameters ++ "`\n"

/-- Accumulating form of the tool-call forEach body. -/
def fmtToolCall (acc : String) (toolCall : ToolCall) : String :=
  acc ++ toolCallBlock toolCall

/-- The status marker chosen for a tool result:
`result.error ? '❌ Failed' : '✅ Success'` (JavaScript truthiness). -/
def statusString (r : ToolResult) : String :=
  if jsTruthy r.error then "❌ Failed" else "✅ Success"

/-- The lines emitted for one tool result: the marker line, then the error
line when `result.error` is truthy. -/
def toolResultBlock (r : ToolResult) : String :=
  "  - " ++ statusString r ++ ": `" ++ r.tool_call_id ++ "`\n"
    ++ (match r.error with
        | some e => if e != "" then "    Error: " ++ e ++ "\n" else ""
        | none => "")

/-- Accumulating form of the tool-result forEach body. -/
def fmtToolResult (acc : String) (r : ToolResult) : String :=
  acc ++ toolResultBlock r

/-- The results sub-list of a turn, emitted only when
`turn.tool_results && turn.tool_results.length > 0`. -/
def toolResultsPart (turn : ConversationMessage) : String :=
  match turn.tool_results with
  | some toolResults =>
    if decide (0 < toolResults.length)
    then "\n  **Results:**\n" ++ toolResults.foldl fmtToolResult ""
    else ""
  | none => ""

/-- The subsection emitted for the tool-call-bearing turn at zero-based
`index` among the tool-call-bearing turns. -/
def fmtToolCallTurn (index : Nat) (turn : ConversationMessage) : String :=
  "### Turn " ++ toString (index + 1) ++ " (" ++ toString turn.time_in_call_secs
    ++ "s into call)\n\n"
    ++ (match turn.tool_calls with
        | some toolCalls => toolCalls.foldl fmtToolCall ""
        | none => "")
    ++ toolResultsPart turn
    ++ "\n"

/-- Section heading of the tool-call analysis. -/
def toolCallsHeading : String := "\n## Tool Calls Analysis\n\n"

/-- src/commands/analyze.ts `analyzeToolCalls`. -/
def analyzeToolCalls (conversation : Conversation) : String :=
  let output := toolCallsHeading
  let turns := toolCallTurns conversation
  if turns.length == 0 then output ++ "_No tool calls detected_\n"
  else turns.enum.foldl (fun acc p => acc ++ fmtToolCallTurn p.1 p.2) output

/-- Model of JavaScript `Number.prototype.toFixed(3)` on the rational
embedding of the metric values: round to the nearest thousandth (half away
from zero on the values the code meets, which are non-negative) and print
with exactly three digits after the point. -/
def toFixed3 (q : Rat) : String :=
  let scaled : Int := Int.floor (q * 1000 + 1 / 2)
  let sign := if scaled < 0 then "-" else ""
  let m := scaled.natAbs
  sign ++ toString (m / 1000) ++ "."
    ++ String.mk [Nat.digitChar (m / 100 % 10), Nat.digitChar (m / 10 % 10), Nat.digitChar (m % 10)]

/-- One metric cell:
`...?.elapsed_time.toFixed(3) || 'N/A'` — `toFixed3` never returns an empty
string, so the `||` fires exactly when the metric is absent. -/
def metricCell (m : Option LatencyMetric) : String :=
  match m with
  | some v => toFixed3 v.elapsed_time
  | none => "N/A"

/-- One table row of the performance-metrics table, at zero-based `index`
among the metric-bearing turns. -/
def metricsRow (index : Nat) (turn : ConversationMessage) : String :=
  let ttfb := metricCell (turn.conversation_turn_metrics.bind
    (fun m => m.convai_llm_service_ttfb))
  let ttfs := metricCell (turn.conversation_turn_metrics.bind
    (fun m => m.convai_llm_service_ttf_sentence))
  "| " ++ toString (index + 1) ++ " | " ++ ttfb ++ " | " ++ ttfs ++ " |\n"

/-- Section heading of the performance metrics. -/
def metricsHeading : String := "\n## Performance Metrics\n\n"

/-- The two table header lines. -/
def metricsTableHeader : String :=
  "| Turn | TTFB (s) | TTF Sentence (s) |\n|------|----------|------------------|\n"

/-- The metric-bearing turns (`turn.conversation_turn_metrics` truthy), in
transcript order. -/
def turnsWithMetrics (conversation : Conversation) : List ConversationMessage :=
  conversation.transcript.filter (fun turn => turn.conversation_turn_metrics.isSome)

/-- src/commands/analyze.ts `analyzeMetrics`. -/
def analyzeMetrics (conversation : Conversation) : String :=
  let output := metricsHeading
  let turns := turnsWithMetrics conversation
  if turns.length == 0 then output ++ "_No metrics available_\n"
  else turns.enum.foldl (fun acc p => acc ++ metricsRow p.1 p.2) (output ++ metricsTableHeader)

/-- The role label of a transcript turn:
`turn.role === 'agent' ? '🤖 Agent' : '👤 User'`. -/
def roleLabel (role : Role) : String :=
  match role with
  | Role.agent => "🤖 Agent"
  | Role.user => "👤 User"

/-- The full-transcript block of one turn. -/
def transcriptTurnBlock (turn : ConversationMessage) : String :=
  "### " ++ roleLabel turn.role ++ " (" ++ toString turn.time_in_call_secs ++ "s)\n\n"
    ++ turn.message ++ "\n\n"

/-- Accumulating form of the full-transcript forEach body. -/
def fmtTranscriptTurn (acc : String) (turn : ConversationMessage) : String :=
  acc ++ transcriptTurnBlock turn

/-- The Markdown document built by `analyzeCommand` for a fetched
conversation (the pure part of the command, before `console.log`). -/
def renderReport (conversationId : String) (conversation : Conversation) : String :=
  let md := "# Conversation Analysis: " ++ conversationId ++ "\n\n"
  let md := md ++ "## Summary\n\n"
  let md := md ++ "- **Agent ID:** " ++ conversation.agent_id ++ "\n"
  let md := md ++ "- **Status:** " ++ conversation.status ++ "\n"
  let md := md ++ "- **Duration:** "
    ++ formatDuration conversation.metadata.call_duration_secs ++ "\n"
  let md := md ++ "- **Cost:** " ++ toString conversation.metadata.cost ++ " credits\n"
  let md := md ++ (match conversation.analysis with
    | some a => if a.call_successful != ""
      then "- **Call Success:** " ++ a.call_successful ++ "\n" else ""
    | none => "")
  let md := md ++ "\n"
  let md := md ++ (match conversation.analysis with
    | some a => if a.transcript_summary != ""
      then "## Transcript Summary\n\n" ++ a.transcript_summary ++ "\n" else ""
    | none => "")
  let md := md ++ analyzeToolCalls conversation
  let md := md ++ analyzeMetrics conversation
  let md := md ++ "\n## Full Transcript\n\n"
  conversation.transcript.foldl fmtTranscriptTurn md

/-! ## Test-harness constructs used by the claims -/

/-- Test-harness model of a remote server that honors the `page_size`
request parameter over a fixed store of items, returning the first
`page_size` of them in server order (the spec's collaborator contract for
the list endpoint). -/
def pageServer (store : List ConversationListItem) :
    ListRequest → Except AxiosError ConversationListResponse :=
  fun req => Except.ok (ConversationListResponse.mk
    (match req.page_size with
     | some n => store.take n
     | none => store))

/-- Concatenation of a list of strings, used to state the shapes of the
accumulated outputs. -/
def strConcat : List String → String
  | [] => ""
  | s :: rest => s ++ strConcat rest

/-- Occurrences of a character in a string. -/
def countChar (s : String) (c : Char) : Nat :=
  (s.data.filter (fun x => x == c)).length

/-! ## Shared lemmas -/

/-- Accumulating string folds are a prefix plus the concatenation of the
per-element blocks. -/
theorem foldl_append_strConcat {α : Type} (f : α → String) :
    ∀ (l : List α) (init : String),
      l.foldl (fun acc x => acc ++ f x) init = init ++ strConcat (l.map f) := by
  intro l
  induction l with
  | nil => intro init; simp [strConcat]
  | cons x xs ih =>
    intro init
    simp only [List.foldl_cons, List.map_cons, strConcat, ih, String.append_assoc]

/-- Counting a character distributes over string append. -/
theorem countChar_append (s t : String) (c : Char) :
    countChar (s ++ t) c = countChar s c + countChar t c := by
  simp [countChar, String.data_append, List.filter_append]

/-! ## Claims about the client error mapping and the list request -/

/-- Claim C1: for each of the three client operations, a transport failure
carrying a response with a numeric status and a status text is mapped to an
error whose message is exactly "API Error: <status> <statusText>" — for 404
and "Not Found" exactly "API Error: 404 Not Found" — and a transport
failure carrying no response propagates as the original error value. -/
theorem c1_api_error_mapping
    (tc : String → Except AxiosError Conversation)
    (tl : ListRequest → Except AxiosError ConversationListResponse)
    (ta : AudioRequest → Except AxiosError (List Nat))
    (cid : String) (opts : Option ListConversationsOptions)
    (e : AxiosError) (st : Nat) (stx : String) :
    (tc (conversationPath cid) = Except.error e →
      e.response = some (HttpResponseInfo.mk st stx) →
      getConversation tc cid
        = Except.error (ThrownError.apiError ("API Error: " ++ toString st ++ " " ++ stx)))
    ∧ (tc (conversationPath cid) = Except.error e → e.response = none →
      getConversation tc cid = Except.error (ThrownError.original e))
    ∧ (tl (mkListRequest opts) = Except.error e →
      e.response = some (HttpResponseInfo.mk st stx) →
      listConversations tl opts
        = Except.error (ThrownError.apiError ("API Error: " ++ toString st ++ " " ++ stx)))
    ∧ (tl (mkListRequest opts) = Except.error e → e.response = none →
      listConversations tl opts = Except.error (ThrownError.original e))
    ∧ (ta (mkAudioRequest cid) = Except.error e →
      e.response = some (HttpResponseInfo.mk st stx) →
      getAudio ta cid
        = Except.error (ThrownError.apiError ("API Error: " ++ toString st ++ " " ++ stx)))
    ∧ (ta (mkAudioRequest cid) = Except.error e → e.response = none →
      getAudio ta cid = Except.error (ThrownError.original e))
    ∧ ("API Error: " ++ toString (404 : Nat) ++ " " ++ "Not Found" = "API Error: 404 Not Found") := by
  refine ⟨?_, ?_, ?_, ?_, ?_, ?_, rfl⟩ <;> intro h1 h2 <;>
    simp [getConversation, listConversations, getAudio, apiErrorMessage, h1, h2]

/-- A 404 axios error, as the api-client tests simulate it. -/
def err404 : AxiosError :=
  AxiosError.mk (some (HttpResponseInfo.mk 404 "Not Found")) "Request failed with status code 404"

/-- A response-less transport failure. -/
def errNet : AxiosError := AxiosError.mk none "ECONNREFUSED"

theorem c1_witness :
    getConversation (fun _ => Except.error err404) ("conv_invalid")
      = Except.error (ThrownError.apiError ("API Error: 404 Not Found"))
    ∧ getConversation (fun _ => Except.error errNet) ("conv_invalid")
      = Except.error (ThrownError.original errNet) := by
  constructor
  · exact (c1_api_error_mapping (fun _ => Except.error err404) (fun _ => Except.error err404)
      (fun _ => Except.error err404) ("conv_invalid") none err404 404 ("Not Found")).1 rfl rfl
  · exact (c1_api_error_mapping (fun _ => Except.error errNet) (fun _ => Except.error errNet)
      (fun _ => Except.error errNet) ("conv_invalid") none errNet 404 ("Not Found")).2.1 rfl rfl

/-- Claim C10: the request built by `listConversations` consists of the
fixed list URL and the `page_size` parameter set to the options' limit;
the offset field is never transmitted, so two calls differing only in
offset build the identical request and return the identical value. -/
theorem c10_offset_ignored
    (tl : ListRequest → Except AxiosError ConversationListResponse)
    (o1 o2 : ListConversationsOptions) :
    (mkListRequest (some o1)).url = listUrl
    ∧ (mkListRequest (some o1)).page_size = o1.limit
    ∧ (o1.limit = o2.limit →
        mkListRequest (some o1) = mkListRequest (some o2)
        ∧ listConversations tl (some o1) = listConversations tl (some o2)) := by
  refine ⟨rfl, rfl, fun h => ?_⟩
  have hreq : mkListRequest (some o1) = mkListRequest (some o2) := by
    simp [mkListRequest, h]
  exact ⟨hreq, by simp [listConversations, hreq]⟩

theorem c10_witness :
    mkListRequest (some (ListConversationsOptions.mk (some 2) (some 0)))
      = mkListRequest (some (ListConversationsOptions.mk (some 2) (some 7)))
    ∧ listConversations (pageServer []) (some (ListConversationsOptions.mk (some 2) (some 0)))
      = listConversations (pageServer []) (some (ListConversationsOptions.mk (some 2) (some 7))) := by
  exact (c10_offset_ignored (pageServer []) (ListConversationsOptions.mk (some 2) (some 0))
    (ListConversationsOptions.mk (some 2) (some 7))).2.2 rfl

/-- Five list items, as a server response ignoring `page_size` could
contain. -/
def fiveItems : List ConversationListItem :=
  [ConversationListItem.mk ("conv_1") ("agent_1") ("2025-10-15T10:00:00Z") none,
   ConversationListItem.mk ("conv_2") ("agent_2") ("2025-10-14T10:00:00Z") none,
   ConversationListItem.mk ("conv_3") ("agent_3") ("2025-10-13T10:00:00Z") none,
   ConversationListItem.mk ("conv_4") ("agent_4") ("2025-10-12T10:00:00Z") none,
   ConversationListItem.mk ("conv_5") ("agent_5") ("2025-10-11T10:00:00Z") none]

/-- Claim C3 counterexample: the client performs no client-side
truncation — called with limit 2 against a server response that contains 5
items, it returns all 5 items, not the first 2. -/
theorem c3_counterexample :
    listConversations (fun _ => Except.ok (ConversationListResponse.mk fiveItems))
        (some (ListConversationsOptions.mk (some 2) (some 0)))
      = Except.ok (ConversationListResponse.mk fiveItems)
    ∧ fiveItems.length = 5
    ∧ ¬(fiveItems.length ≤ 2) := by
  exact ⟨rfl, rfl, by decide⟩

/-- Claim C3 (amended): `listConversations` with limit n sends
`page_size = n` and returns the server's response data unchanged — no
client-side sorting, deduplication, truncation or reordering — so against a
server that honors `page_size` over its item store it returns exactly the
first n items of the store in server order, hence at most n items; and the
list command renders the returned items in response order. -/
theorem c3_list_limit
    (tl : ListRequest → Except AxiosError ConversationListResponse)
    (opts : Option ListConversationsOptions)
    (data : ConversationListResponse)
    (store : List ConversationListItem) (n : Nat) (off : Option Nat) :
    (tl (mkListRequest opts) = Except.ok data → listConversations tl opts = Except.ok data)
    ∧ listConversations (pageServer store) (some (ListConversationsOptions.mk (some n) off))
        = Except.ok (ConversationListResponse.mk (store.take n))
    ∧ (store.take n).length ≤ n
    ∧ (∀ resp : ConversationListResponse,
        renderListOutput resp
          = "\n📋 Recent Conversations (showing "
            ++ toString resp.conversations.length ++ "):\n" ++ "\n"
            ++ strConcat (resp.conversations.enum.map (fun p => listItemBlock p.1 p.2))) := by
  refine ⟨fun h => ?_, ?_, ?_, fun resp => ?_⟩
  · simp [listConversations, h]
  · simp [listConversations, pageServer, mkListRequest]
  · simp [List.length_take]
  · simp only [renderListOutput, foldl_append_strConcat, String.append_assoc]

theorem c3_witness :
    listConversations (fun _ => Except.ok (ConversationListResponse.mk (fiveItems.take 2))) none
      = Except.ok (ConversationListResponse.mk (fiveItems.take 2))
    ∧ listConversations (pageServer fiveItems)
        (some (ListConversationsOptions.mk (some 2) (some 0)))
      = Except.ok (ConversationListResponse.mk (fiveItems.take 2))
    ∧ (fiveItems.take 2).length ≤ 2 := by
  refine ⟨?_, ?_, ?_⟩
  · exact (c3_list_limit (fun _ => Except.ok (ConversationListResponse.mk (fiveItems.take 2)))
      none (ConversationListResponse.mk (fiveItems.take 2)) fiveItems 2 (some 0)).1 rfl
  · exact (c3_list_limit (pageServer fiveItems) none (ConversationListResponse.mk [])
      fiveItems 2 (some 0)).2.1
  · exact (c3_list_limit (pageServer fiveItems) none (ConversationListResponse.mk [])
      fiveItems 2 (some 0)).2.2.1

/-- Claim C7: durations are formatted as "<m>m <r>s" with m the integer
quotient by 60 and r the remainder, with no zero-padding; 105 gives
"1m 45s", 0 gives "0m 0s", 59 gives "0m 59s". -/
theorem c7_formatDuration :
    (∀ seconds : Nat,
      formatDuration seconds
        = toString (seconds / 60) ++ "m " ++ toString (seconds % 60) ++ "s")
    ∧ formatDuration 105 = "1m 45s"
    ∧ formatDuration 0 = "0m 0s"
    ∧ formatDuration 59 = "0m 59s" := by
  exact ⟨fun s => rfl, rfl, rfl, rfl⟩

/-! ## Claims about the configuration resolver -/

/-- Filtering with a weaker predicate does not change the first match of a
stronger one. -/
theorem find?_filter_of_imp {α : Type} (p q : α → Bool)
    (h : ∀ a, p a = true → q a = true) :
    ∀ l : List α, (l.filter q).find? p = l.find? p := by
  intro l
  induction l with
  | nil => rfl
  | cons x xs ih =>
    by_cases hq : q x = true
    · cases hp : p x with
      | true => simp [List.filter_cons, List.find?_cons, hq, hp]
      | false => simp [List.filter_cons, List.find?_cons, hq, hp, ih]
    · have hp : p x = false := by
        cases hpx : p x with
        | false => rfl
        | true => exact absurd (h x hpx) hq
      simp [List.filter_cons, List.find?_cons, hq, hp, ih]

/-- A variable present in the process environment survives the dotenv merge
with its process value. -/
theorem envGet_populate_of_some (procEnv fileVars : List (String × String)) (key v : String)
    (h : envGet procEnv key = some v) :
    envGet (dotenvPopulate procEnv fileVars) key = some v := by
  unfold envGet dotenvPopulate
  unfold envGet at h
  cases hf : procEnv.find? (fun p => p.1 == key) with
  | none => rw [hf] at h; simp at h
  | some pr =>
    rw [hf] at h
    rw [List.find?_append, hf]
    simpa using h

/-- A variable absent from the process environment reads, after the dotenv
merge, as what the .env file defines for it. -/
theorem envGet_populate_of_none (procEnv fileVars : List (String × String)) (key : String)
    (h : envGet procEnv key = none) :
    envGet (dotenvPopulate procEnv fileVars) key = envGet fileVars key := by
  have hf : procEnv.find? (fun p => p.1 == key) = none := by
    unfold envGet at h
    cases hf : procEnv.find? (fun p => p.1 == key) with
    | none => rfl
    | some pr => rw [hf] at h; simp at h
  unfold envGet dotenvPopulate
  rw [List.find?_append, hf]
  simp only [Option.none_or]
  congr 1
  apply find?_filter_of_imp
  intro a ha
  have hak : a.1 = key := by simpa using ha
  rw [hak, h]
  rfl

/-- A falsy explicit key (absent or empty) falls through to the
environment sources. -/
theorem loadConfig_falsy (options : LoadConfigOptions)
    (envFile : Option (List (String × String))) (procEnv : List (String × String))
    (h : jsTruthy options.apiKey = false) :
    loadConfig options envFile procEnv = loadConfigFromEnv envFile procEnv := by
  cases ha : options.apiKey with
  | none => simp [loadConfig, ha]
  | some s =>
    have hs : s = "" := by simpa [jsTruthy, ha] using h
    simp [loadConfig, ha, hs]

/-- Claim C2 counterexample: with no explicit key, an empty process
environment and a .env file defining the variable as the empty string, the
claim's third clause ("if the .env file exists and defines the variable,
that file's value is returned") predicts success with that value, but
`loadConfig` fails. -/
theorem c2_counterexample :
    loadConfig (LoadConfigOptions.mk none none) (some [(apiKeyVarName, "")]) []
      = Except.error configErrorMessage
    ∧ (Except.error configErrorMessage : Except String Config) ≠ Except.ok (Config.mk ("")) := by
  refine ⟨rfl, fun h => ?_⟩
  exact Except.noConfusion h

/-- Claim C2 (amended): a non-empty explicit key is returned and no other
source is consulted; otherwise a process environment variable set to a
non-empty value is returned even when an existing .env file defines a
different value (the merge never overwrites variables already set in the
process environment); otherwise, when the variable is absent from the
process environment and the .env file defines it with a non-empty value,
the file's value is returned. -/
theorem c2_config_priority
    (options : LoadConfigOptions)
    (fileVars procEnv : List (String × String))
    (envFile : Option (List (String × String))) (k v w : String) :
    (options.apiKey = some k → k ≠ "" →
      loadConfig options envFile procEnv = Except.ok (Config.mk k))
    ∧ (jsTruthy options.apiKey = false → envGet procEnv apiKeyVarName = some v → v ≠ "" →
      loadConfig options envFile procEnv = Except.ok (Config.mk v))
    ∧ (jsTruthy options.apiKey = false → envGet procEnv apiKeyVarName = none →
      envGet fileVars apiKeyVarName = some w → w ≠ "" →
      loadConfig options (some fileVars) procEnv = Except.ok (Config.mk w)) := by
  refine ⟨fun h1 h2 => ?_, fun h1 h2 h3 => ?_, fun h1 h2 h3 h4 => ?_⟩
  · simp [loadConfig, h1, h2]
  · rw [loadConfig_falsy options envFile procEnv h1]
    unfold loadConfigFromEnv
    cases envFile with
    | none => simp [h2, h3]
    | some f =>
      have hv := envGet_populate_of_some procEnv f apiKeyVarName v h2
      simp [hv, h3]
  · rw [loadConfig_falsy options (some fileVars) procEnv h1]
    unfold loadConfigFromEnv
    have hw := envGet_populate_of_none procEnv fileVars apiKeyVarName h2
    simp [hw, h3, h4]

theorem c2_witness :
    loadConfig (LoadConfigOptions.mk (some ("A")) none)
        (some [(apiKeyVarName, "C")]) [(apiKeyVarName, "B")]
      = Except.ok (Config.mk ("A"))
    ∧ loadConfig (LoadConfigOptions.mk none none)
        (some [(apiKeyVarName, "C")]) [(apiKeyVarName, "B")]
      = Except.ok (Config.mk ("B"))
    ∧ loadConfig (LoadConfigOptions.mk none none)
        (some [(apiKeyVarName, "C")]) []
      = Except.ok (Config.mk ("C")) := by
  refine ⟨?_, ?_, ?_⟩
  · exact (c2_config_priority (LoadConfigOptions.mk (some ("A")) none)
      [(apiKeyVarName, "C")] [(apiKeyVarName, "B")] (some [(apiKeyVarName, "C")])
      ("A") ("B") ("C")).1 rfl (by decide)
  · exact (c2_config_priority (LoadConfigOptions.mk none none)
      [(apiKeyVarName, "C")] [(apiKeyVarName, "B")] (some [(apiKeyVarName, "C")])
      ("A") ("B") ("C")).2.1 rfl rfl (by decide)
  · exact (c2_config_priority (LoadConfigOptions.mk none none)
      [(apiKeyVarName, "C")] [] (some [(apiKeyVarName, "C")])
      ("A") ("B") ("C")).2.2 rfl rfl rfl (by decide)

/-- The failure condition of priorities 2 and 3: the process variable is
empty or missing and the .env file does not contribute a non-empty value
for an absent variable. -/
theorem loadConfigFromEnv_error_iff (envFile : Option (List (String × String)))
    (procEnv : List (String × String)) :
    loadConfigFromEnv envFile procEnv = Except.error configErrorMessage
    ↔ ((envGet procEnv apiKeyVarName = none ∨ envGet procEnv apiKeyVarName = some (""))
       ∧ ¬(envGet procEnv apiKeyVarName = none
            ∧ ∃ fileVars w, envFile = some fileVars
                ∧ envGet fileVars apiKeyVarName = some w ∧ w ≠ "")) := by
  cases envFile with
  | none =>
    unfold loadConfigFromEnv
    cases hp : envGet procEnv apiKeyVarName with
    | none => simp [hp]
    | some v =>
      by_cases hv : v = ""
      · subst hv; simp [hp]
      · simp [hp, hv]
  | some f =>
    unfold loadConfigFromEnv
    cases hp : envGet procEnv apiKeyVarName with
    | some v =>
      have hv2 := envGet_populate_of_some procEnv f apiKeyVarName v hp
      by_cases hv : v = ""
      · subst hv; simp [hv2, hp]
      · simp [hv2, hp, hv]
    | none =>
      have hv2 := envGet_populate_of_none procEnv f apiKeyVarName hp
      cases hf : envGet f apiKeyVarName with
      | none => simp [hv2, hp, hf]
      | some w =>
        by_cases hw : w = ""
        · subst hw; simp [hv2, hp, hf]
        · simp [hv2, hp, hf, hw]

/-- Claim C8 (amended): the resolver fails exactly when the explicit key is
empty or absent, the process environment variable is empty or missing, and
the .env file does not supply a non-empty value for a variable absent from
the process environment (a variable already present in the process
environment — even with an empty value — is never overwritten by the
merge); the failure message is exactly "ELEVENLABS_API_KEY not found. Set
it via .env file, environment variable, or --api-key flag.". -/
theorem c8_config_failure
    (options : LoadConfigOptions) (envFile : Option (List (String × String)))
    (procEnv : List (String × String)) :
    loadConfig options envFile procEnv = Except.error configErrorMessage
    ↔ (jsTruthy options.apiKey = false
       ∧ (envGet procEnv apiKeyVarName = none ∨ envGet procEnv apiKeyVarName = some (""))
       ∧ ¬(envGet procEnv apiKeyVarName = none
            ∧ ∃ fileVars w, envFile = some fileVars
                ∧ envGet fileVars apiKeyVarName = some w ∧ w ≠ "")) := by
  by_cases ht : jsTruthy options.apiKey = true
  · cases ha : options.apiKey with
    | none => simp [jsTruthy, ha] at ht
    | some s =>
      have hs : s ≠ "" := by simpa [jsTruthy, ha] using ht
      simp [loadConfig, jsTruthy, ha, hs]
  · have hfalse : jsTruthy options.apiKey = false := by
      cases hj : jsTruthy options.apiKey with
      | false => rfl
      | true => exact absurd hj ht
    rw [loadConfig_falsy options envFile procEnv hfalse, loadConfigFromEnv_error_iff]
    simp [hfalse]

theorem c8_witness :
    loadConfig (LoadConfigOptions.mk none none) none [] = Except.error configErrorMessage := by
  refine (c8_config_failure (LoadConfigOptions.mk none none) none []).2 ⟨rfl, Or.inl rfl, ?_⟩
  rintro ⟨h1, fv, w, hfv, hw, hne⟩
  exact Option.noConfusion hfv

/-- Claim C8 counterexample: the process environment variable set to the
empty string blocks the .env merge, so the resolver fails although the env
file supplies a (truthy) value for the variable — contradicting the
claim's "only if" direction. -/
theorem c8_counterexample :
    loadConfig (LoadConfigOptions.mk none none)
        (some [(apiKeyVarName, "C")]) [(apiKeyVarName, "")]
      = Except.error configErrorMessage
    ∧ envGet [(apiKeyVarName, "C")] apiKeyVarName = some ("C")
    ∧ jsTruthy (envGet [(apiKeyVarName, "C")] apiKeyVarName) = true := by
  exact ⟨rfl, rfl, rfl⟩

/-! ## Claims about the report formatter -/

/-- An accumulating fold of tool-call blocks is their concatenation. -/
theorem foldl_fmtToolCall (l : List ToolCall) (init : String) :
    l.foldl fmtToolCall init = init ++ strConcat (l.map toolCallBlock) :=
  foldl_append_strConcat toolCallBlock l init

/-- Claim C4: when no turn in the transcript has a non-empty tool-call
list, the tool-call section is the heading followed by the single
placeholder line, with no per-turn subsections; otherwise one subsection
per tool-call-bearing turn is emitted, numbered by that turn's index among
the tool-call-bearing turns (not by its transcript position), each showing
every call's name, identifier and the compact JSON encoding of its
parameter mapping. -/
theorem c4_tool_call_section (conversation : Conversation) :
    ((∀ turn ∈ conversation.transcript, hasToolCallList turn = false) →
      analyzeToolCalls conversation = toolCallsHeading ++ "_No tool calls detected_\n")
    ∧ (toolCallTurns conversation ≠ [] →
      analyzeToolCalls conversation
        = toolCallsHeading ++ strConcat ((toolCallTurns conversation).enum.map
            (fun p => fmtToolCallTurn p.1 p.2)))
    ∧ (∀ (i : Nat) (turn : ConversationMessage),
      fmtToolCallTurn i turn
        = "### Turn " ++ toString (i + 1) ++ " (" ++ toString turn.time_in_call_secs
            ++ "s into call)\n\n"
          ++ (match turn.tool_calls with
              | some toolCalls => strConcat (toolCalls.map toolCallBlock)
              | none => "")
          ++ toolResultsPart turn ++ "\n")
    ∧ (∀ c : ToolCall, toolCallBlock c
        = "- **" ++ c.name ++ "**\n" ++ "  - ID: `" ++ c.tool_call_id ++ "`\n"
          ++ "  - Parameters: `" ++ jsonStringifyObj c.parameters ++ "`\n") := by
  refine ⟨fun h => ?_, fun h => ?_, fun i turn => ?_, fun c => rfl⟩
  · have hnil : toolCallTurns conversation = [] := by
      unfold toolCallTurns
      rw [List.filter_eq_nil_iff]
      intro a ha
      simp [h a ha]
    simp [analyzeToolCalls, hnil]
  · have hlen : ((toolCallTurns conversation).length == 0) = false := by
      cases hc : toolCallTurns conversation with
      | nil => exact absurd hc h
      | cons x xs => rfl
    unfold analyzeToolCalls
    simp only [hlen, Bool.false_eq_true, if_false]
    rw [foldl_append_strConcat]
  · cases hc : turn.tool_calls with
    | none => simp [fmtToolCallTurn, hc]
    | some toolCalls =>
      simp only [fmtToolCallTurn, hc, foldl_fmtToolCall, String.empty_append,
        String.append_assoc]

/-- A transcript turn without tool calls or metrics. -/
def turnPlain : ConversationMessage :=
  ConversationMessage.mk Role.user ("Hello") none none 3 none

/-- A sample tool call. -/
def sampleCall : ToolCall :=
  ToolCall.mk ("call_1") ("get_weather") [("location", JsonVal.str ("SF"))]

/-- A transcript turn bearing one tool call and one successful result. -/
def turnWithCalls : ConversationMessage :=
  ConversationMessage.mk Role.agent ("Checking") (some [sampleCall])
    (some [ToolResult.mk ("call_1") JsonVal.null none]) 7 none

/-- Sample conversation metadata. -/
def sampleMeta : ConversationMetadata := ConversationMetadata.mk 0 105 42

/-- A conversation whose only turn has no tool calls. -/
def convNoTools : Conversation :=
  Conversation.mk ("conv_a") ("agent_a") ("done") [turnPlain] sampleMeta none

/-- A conversation whose second transcript turn is the first (and only)
tool-call-bearing turn. -/
def convWithTools : Conversation :=
  Conversation.mk ("conv_b") ("agent_b") ("done") [turnPlain, turnWithCalls] sampleMeta none

theorem c4_witness :
    analyzeToolCalls convNoTools = toolCallsHeading ++ "_No tool calls detected_\n"
    ∧ analyzeToolCalls convWithTools
      = toolCallsHeading ++ strConcat ((toolCallTurns convWithTools).enum.map
          (fun p => fmtToolCallTurn p.1 p.2))
    ∧ fmtToolCallTurn 0 turnWithCalls
      = "### Turn " ++ toString (0 + 1) ++ " (" ++ toString turnWithCalls.time_in_call_secs
          ++ "s into call)\n\n"
        ++ (match turnWithCalls.tool_calls with
            | some toolCalls => strConcat (toolCalls.map toolCallBlock)
            | none => "")
        ++ toolResultsPart turnWithCalls ++ "\n"
    ∧ toolCallBlock sampleCall
      = "- **" ++ sampleCall.name ++ "**\n" ++ "  - ID: `" ++ sampleCall.tool_call_id ++ "`\n"
        ++ "  - Parameters: `" ++ jsonStringifyObj sampleCall.parameters ++ "`\n" := by
  refine ⟨?_, ?_, ?_, ?_⟩
  · exact (c4_tool_call_section convNoTools).1 (by decide)
  · exact (c4_tool_call_section convWithTools).2.1 (by decide)
  · exact (c4_tool_call_section convWithTools).2.2.1 0 turnWithCalls
  · exact (c4_tool_call_section convWithTools).2.2.2 sampleCall

/-- Claim C5: the performance-metrics section has exactly one table row per
metric-bearing turn, numbered by index among the metric-bearing turns; a
present metric is rendered with exactly three digits after the decimal
point and an absent metric on a metric-bearing turn renders the "N/A"
placeholder cell, never a fabricated zero; when no turn has a metrics
block, the section is the heading plus the single placeholder line and no
table. -/
theorem c5_metrics_section (conversation : Conversation) (q : Rat) :
    ((∀ turn ∈ conversation.transcript, turn.conversation_turn_metrics = none) →
      analyzeMetrics conversation = metricsHeading ++ "_No metrics available_\n")
    ∧ (turnsWithMetrics conversation ≠ [] →
      analyzeMetrics conversation
        = metricsHeading ++ metricsTableHeader
          ++ strConcat ((turnsWithMetrics conversation).enum.map
              (fun p => metricsRow p.1 p.2)))
    ∧ ((turnsWithMetrics conversation).enum.map (fun p => metricsRow p.1 p.2)).length
        = (turnsWithMetrics conversation).length
    ∧ (∀ (i : Nat) (turn : ConversationMessage),
      metricsRow i turn
        = "| " ++ toString (i + 1) ++ " | "
          ++ metricCell (turn.conversation_turn_metrics.bind
              (fun m => m.convai_llm_service_ttfb)) ++ " | "
          ++ metricCell (turn.conversation_turn_metrics.bind
              (fun m => m.convai_llm_service_ttf_sentence)) ++ " |\n")
    ∧ metricCell none = "N/A"
    ∧ (∀ v : LatencyMetric, metricCell (some v) = toFixed3 v.elapsed_time)
    ∧ (∃ ip fr : String, toFixed3 q = ip ++ "." ++ fr ∧ fr.length = 3)
    ∧ metricCell none ≠ "0.000" := by
  refine ⟨fun h => ?_, fun h => ?_, ?_, fun i turn => ?_, rfl, fun v => rfl, ?_, by decide⟩
  · have hnil : turnsWithMetrics conversation = [] := by
      unfold turnsWithMetrics
      rw [List.filter_eq_nil_iff]
      intro a ha
      simp [h a ha]
    simp [analyzeMetrics, hnil]
  · have hlen : ((turnsWithMetrics conversation).length == 0) = false := by
      cases hc : turnsWithMetrics conversation with
      | nil => exact absurd hc h
      | cons x xs => rfl
    simp only [analyzeMetrics, hlen, Bool.false_eq_true, if_false,
      foldl_append_strConcat, String.append_assoc]
  · simp
  · simp [metricsRow]
  · refine ⟨(if Int.floor (q * 1000 + 1 / 2) < 0 then "-" else "")
      ++ toString ((Int.floor (q * 1000 + 1 / 2)).natAbs / 1000),
      String.mk [Nat.digitChar ((Int.floor (q * 1000 + 1 / 2)).natAbs / 100 % 10),
        Nat.digitChar ((Int.floor (q * 1000 + 1 / 2)).natAbs / 10 % 10),
        Nat.digitChar ((Int.floor (q * 1000 + 1 / 2)).natAbs % 10)], ?_, rfl⟩
    simp [toFixed3, String.append_assoc]

/-- A transcript turn bearing a metrics block with a TTFB value and no
TTF-sentence value. -/
def turnWithMetrics : ConversationMessage :=
  ConversationMessage.mk Role.agent ("Hi") none none 5
    (some (TurnMetrics.mk (some (LatencyMetric.mk 1)) none))

/-- A conversation whose second transcript turn is the only metric-bearing
turn. -/
def convWithMetrics : Conversation :=
  Conversation.mk ("conv_m") ("agent_m") ("done") [turnPlain, turnWithMetrics] sampleMeta none

theorem c5_witness :
    analyzeMetrics convNoTools = metricsHeading ++ "_No metrics available_\n"
    ∧ analyzeMetrics convWithMetrics
      = metricsHeading ++ metricsTableHeader
        ++ strConcat ((turnsWithMetrics convWithMetrics).enum.map
            (fun p => metricsRow p.1 p.2))
    ∧ metricsRow 0 turnWithMetrics
      = "| " ++ toString (0 + 1) ++ " | "
        ++ metricCell (turnWithMetrics.conversation_turn_metrics.bind
            (fun m => m.convai_llm_service_ttfb)) ++ " | "
        ++ metricCell (turnWithMetrics.conversation_turn_metrics.bind
            (fun m => m.convai_llm_service_ttf_sentence)) ++ " |\n" := by
  refine ⟨?_, ?_, ?_⟩
  · exact (c5_metrics_section convNoTools 1).1 (by decide)
  · exact (c5_metrics_section convWithMetrics 1).2.1 (by decide)
  · exact (c5_metrics_section convWithMetrics 1).2.2.2.1 0 turnWithMetrics

/-- A ToolResult carrying a present-but-empty error string. -/
def emptyErrorResult : ToolResult := ToolResult.mk ("call_1") JsonVal.null (some (""))

/-- Claim C6 counterexample: a ToolResult whose error string is present but
empty renders the success marker, not the failure marker — the rendering is
decided by JavaScript truthiness of the error, not by its presence. -/
theorem c6_counterexample :
    emptyErrorResult.error = some ("")
    ∧ statusString emptyErrorResult = "✅ Success"
    ∧ toolResultBlock emptyErrorResult
      = "  - " ++ "✅ Success" ++ ": `" ++ "call_1" ++ "`\n"
    ∧ countChar (toolResultBlock emptyErrorResult) '✅' = 1
    ∧ countChar (toolResultBlock emptyErrorResult) '❌' = 0 := by
  exact ⟨rfl, rfl, by decide, by decide, by decide⟩

/-- Claim C6 (amended): for every rendered ToolResult entry exactly one of
the two markers appears, decided by the error string being present and
non-empty: such a result renders the failure marker and the error text and
never the success marker, while a result whose error is absent or empty
renders the success marker and never the failure marker. -/
theorem c6_result_markers (r : ToolResult)
    (hid1 : countChar r.tool_call_id '✅' = 0) (hid2 : countChar r.tool_call_id '❌' = 0)
    (herr1 : countChar (r.error.getD ("")) '✅' = 0)
    (herr2 : countChar (r.error.getD ("")) '❌' = 0) :
    (jsTruthy r.error = true →
      countChar (toolResultBlock r) '❌' = 1
      ∧ countChar (toolResultBlock r) '✅' = 0
      ∧ ∃ e pre, r.error = some e ∧ e ≠ ""
          ∧ toolResultBlock r = pre ++ "    Error: " ++ e ++ "\n")
    ∧ (jsTruthy r.error = false →
      countChar (toolResultBlock r) '✅' = 1
      ∧ countChar (toolResultBlock r) '❌' = 0)
    ∧ (statusString r = "❌ Failed" ↔ jsTruthy r.error = true)
    ∧ (statusString r = "✅ Success" ↔ jsTruthy r.error = false) := by
  cases hr : r.error with
  | none =>
    have hb : toolResultBlock r = "  - " ++ "✅ Success" ++ ": `" ++ r.tool_call_id ++ "`\n" := by
      simp [toolResultBlock, statusString, jsTruthy, hr]
    refine ⟨fun ht => by simp [jsTruthy, hr] at ht, fun _ => ?_, ?_, ?_⟩
    · rw [hb]
      constructor
      · simp only [countChar_append, hid1]
        decide
      · simp only [countChar_append, hid2]
        decide
    · simp [statusString, jsTruthy, hr]
    · simp [statusString, jsTruthy, hr]
  | some e =>
    by_cases he : e = ""
    · subst he
      have hb : toolResultBlock r
          = "  - " ++ "✅ Success" ++ ": `" ++ r.tool_call_id ++ "`\n" := by
        simp [toolResultBlock, statusString, jsTruthy, hr]
      refine ⟨fun ht => by simp [jsTruthy, hr] at ht, fun _ => ?_, ?_, ?_⟩
      · rw [hb]
        constructor
        · simp only [countChar_append, hid1]
          decide
        · simp only [countChar_append, hid2]
          decide
      · simp [statusString, jsTruthy, hr]
      · simp [statusString, jsTruthy, hr]
    · have he1 : countChar e '✅' = 0 := by simpa [hr] using herr1
      have he2 : countChar e '❌' = 0 := by simpa [hr] using herr2
      have hb : toolResultBlock r
          = "  - " ++ "❌ Failed" ++ ": `" ++ r.tool_call_id ++ "`\n"
            ++ ("    Error: " ++ e ++ "\n") := by
        simp [toolResultBlock, statusString, jsTruthy, hr, he]
      refine ⟨fun _ => ?_, fun hf => by simp [jsTruthy, hr, he] at hf, ?_, ?_⟩
      · refine ⟨?_, ?_, e, "  - " ++ "❌ Failed" ++ ": `" ++ r.tool_call_id ++ "`\n",
          rfl, he, ?_⟩
        · rw [hb]
          simp only [countChar_append, hid2, he2]
          decide
        · rw [hb]
          simp only [countChar_append, hid1, he1]
          decide
        · rw [hb]
          simp only [String.append_assoc]
      · simp [statusString, jsTruthy, hr, he]
      · simp [statusString, jsTruthy, hr, he]

/-- A ToolResult carrying a non-empty error. -/
def failedResult : ToolResult := ToolResult.mk ("call_9") JsonVal.null (some ("boom"))

/-- A ToolResult with no error. -/
def successResult : ToolResult := ToolResult.mk ("call_8") (JsonVal.str ("ok")) none

theorem c6_witness :
    (countChar (toolResultBlock failedResult) '❌' = 1
      ∧ countChar (toolResultBlock failedResult) '✅' = 0
      ∧ ∃ e pre, failedResult.error = some e ∧ e ≠ ""
          ∧ toolResultBlock failedResult = pre ++ "    Error: " ++ e ++ "\n")
    ∧ (countChar (toolResultBlock successResult) '✅' = 1
      ∧ countChar (toolResultBlock successResult) '❌' = 0) := by
  constructor
  · exact (c6_result_markers failedResult (by decide) (by decide) (by decide) (by decide)).1
      (by decide)
  · exact (c6_result_markers successResult (by decide) (by decide) (by decide) (by decide)).2.1
      (by decide)

/-- Claim C9: for a conversation with an empty transcript (and the required
metadata present, as the embedding's total record type guarantees), report
generation is total — it cannot throw — and yields the summary section,
the tool-call placeholder line, the metrics placeholder line, and the
full-transcript heading followed by no turns. -/
theorem c9_empty_transcript (conversationId : String) (conversation : Conversation)
    (h : conversation.transcript = []) :
    renderReport conversationId conversation
      = "# Conversation Analysis: " ++ conversationId ++ "\n\n"
        ++ "## Summary\n\n"
        ++ "- **Agent ID:** " ++ conversation.agent_id ++ "\n"
        ++ "- **Status:** " ++ conversation.status ++ "\n"
        ++ "- **Duration:** " ++ formatDuration conversation.metadata.call_duration_secs ++ "\n"
        ++ "- **Cost:** " ++ toString conversation.metadata.cost ++ " credits\n"
        ++ (match conversation.analysis with
            | some a => if a.call_successful != ""
              then "- **Call Success:** " ++ a.call_successful ++ "\n" else ""
            | none => "")
        ++ "\n"
        ++ (match conversation.analysis with
            | some a => if a.transcript_summary != ""
              then "## Transcript Summary\n\n" ++ a.transcript_summary ++ "\n" else ""
            | none => "")
        ++ (toolCallsHeading ++ "_No tool calls detected_\n")
        ++ (metricsHeading ++ "_No metrics available_\n")
        ++ "\n## Full Transcript\n\n" := by
  have htc : analyzeToolCalls conversation = toolCallsHeading ++ "_No tool calls detected_\n" := by
    simp [analyzeToolCalls, toolCallTurns, h]
  have hm : analyzeMetrics conversation = metricsHeading ++ "_No metrics available_\n" := by
    simp [analyzeMetrics, turnsWithMetrics, h]
  simp only [renderReport, h, List.foldl_nil, htc, hm, String.append_assoc]

/-- A conversation with an empty transcript. -/
def emptyConv : Conversation :=
  Conversation.mk ("conv_e") ("agent_e") ("done") [] sampleMeta none

theorem c9_witness :
    renderReport ("conv_e") emptyConv
      = "# Conversation Analysis: " ++ ("conv_e") ++ "\n\n"
        ++ "## Summary\n\n"
        ++ "- **Agent ID:** " ++ emptyConv.agent_id ++ "\n"
        ++ "- **Status:** " ++ emptyConv.status ++ "\n"
        ++ "- **Duration:** " ++ formatDuration emptyConv.metadata.call_duration_secs ++ "\n"
        ++ "- **Cost:** " ++ toString emptyConv.metadata.cost ++ " credits\n"
        ++ (match emptyConv.analysis with
            | some a => if a.call_successful != ""
              then "- **Call Success:** " ++ a.call_successful ++ "\n" else ""
            | none => "")
        ++ "\n"
        ++ (match emptyConv.analysis with
            | some a => if a.transcript_summary != ""
              then "## Transcript Summary\n\n" ++ a.transcript_summary ++ "\n" else ""
            | none => "")
        ++ (toolCallsHeading ++ "_No tool calls detected_\n")
        ++ (metricsHeading ++ "_No metrics available_\n")
        ++ "\n## Full Transcript\n\n" :=
  c9_empty_transcript ("conv_e") emptyConv rfl
